/-
Formal model of the multi-tenant authentication bridge of the
SynaptaGrid marketing front end (React/TypeScript), covering:

  * src/auth/cookie.ts            — cross-domain token store (cookies)
  * src/auth/oidc.ts              — PKCE flow initiator / token exchange client
  * src/contexts/BootstrapContext — tenant bootstrap resolver (two variants)
  * src/App.tsx (AuthCallbackPage, parseFragmentTokens) — callback orchestrator
  * src/hooks/useTokenRefresh.ts  — refresh scheduler

Browser / platform primitives (fetch, setTimeout, atob + JSON.parse of the
JWT payload, Math.random entropy) are modelled as explicit environment
inputs; everything the repository itself computes is translated directly.
JavaScript string truthiness (null and the empty string are falsy) is made
explicit via the js* helpers below.
-/
import Mathlib

/-! ## JavaScript string helpers -/

/-- JS truthiness of a `string | null` value: `null` and `""` are falsy. -/
def jsTruthy : Option String → Bool
  | none => false
  | some s => !s.isEmpty

/-- JS falsiness of a `string | null` value (negation of `jsTruthy`). -/
def jsFalsy (o : Option String) : Bool := !jsTruthy o

/-- JS `a || b` for a `string | null` left operand: keep `a` when truthy. -/
def jsOr (o : Option String) (d : String) : String :=
  match o with
  | none => d
  | some s => if s.isEmpty then d else s

/-- JS `a || b` for two strings. -/
def jsOrS (a d : String) : String := if a.isEmpty then d else a

/-! ## JS string primitives

The source manipulates JS strings (`split`, `trim`, `startsWith`, `slice`);
these are modelled over the character list of a Lean string so that every
definition evaluates by kernel reduction. -/

/-- JS whitespace (ASCII portion: space, tab, LF, VT, FF, CR). -/
def isJsWhitespace (c : Char) : Bool :=
  c.toNat == 32 || (9 ≤ c.toNat && c.toNat ≤ 13)

/-- Does the first list start with the second? -/
def listStartsWith : List Char → List Char → Bool
  | _, [] => true
  | [], _ :: _ => false
  | a :: as, b :: bs => a == b && listStartsWith as bs

/-- JS `s.startsWith(t)`. -/
def jsStartsWith (s t : String) : Bool := listStartsWith s.data t.data

/-- JS `s.trim()`. -/
def jsTrim (s : String) : String :=
  ⟨((s.data.dropWhile isJsWhitespace).reverse.dropWhile isJsWhitespace).reverse⟩

/-- JS `s.length` (UTF-16 units; identical to the character count for the
ASCII data handled here). -/
def jsLength (s : String) : Nat := s.data.length

/-- JS `s.slice(n)`: drop the first `n` characters. -/
def jsDrop (s : String) (n : Nat) : String := ⟨s.data.drop n⟩

/-- Fuel-driven worker for `split` with a non-empty separator. -/
def jsSplitGo (sep : List Char) : Nat → List Char → List Char → List (List Char)
  | 0, rest, acc => [acc.reverse ++ rest]
  | fuel + 1, cs, acc =>
    match cs with
    | [] => [acc.reverse]
    | c :: rest =>
      if listStartsWith (c :: rest) sep then
        acc.reverse :: jsSplitGo sep fuel (List.drop (sep.length - 1) rest) []
      else
        jsSplitGo sep fuel rest (c :: acc)

/-- JS `s.split(sep)` for a non-empty separator string. -/
def jsSplit (s sep : String) : List String :=
  (jsSplitGo sep.data (s.data.length + 1) s.data []).map fun cs => ⟨cs⟩


/-! ## Percent encoding (encodeURIComponent / decodeURIComponent)

`encodeURIComponent` leaves the unreserved set `A-Z a-z 0-9 - _ . ! ~ * ' ( )`
intact and percent-encodes the UTF-8 bytes of every other character with
uppercase hex digits.  `decodeURIComponent` decodes `%XX` byte sequences and
throws (modelled as `none`) on malformed percent escapes or invalid UTF-8. -/

/-- Characters `encodeURIComponent` leaves unencoded. -/
def isUriUnreserved (c : Char) : Bool :=
  let n := c.toNat
  (65 ≤ n && n ≤ 90) || (97 ≤ n && n ≤ 122) || (48 ≤ n && n ≤ 57) ||
    n == 45 || n == 95 || n == 46 || n == 33 || n == 126 || n == 42 ||
    n == 39 || n == 40 || n == 41

/-- Uppercase hex digit for a value `< 16`. -/
def hexDigitUpper (n : Nat) : Char :=
  if n < 10 then Char.ofNat (48 + n) else Char.ofNat (55 + n)

/-- UTF-8 bytes of a single character. -/
def utf8BytesOfChar (c : Char) : List Nat :=
  let n := c.toNat
  if n < 128 then [n]
  else if n < 2048 then [192 + n / 64, 128 + n % 64]
  else if n < 65536 then [224 + n / 4096, 128 + (n / 64) % 64, 128 + n % 64]
  else [240 + n / 262144, 128 + (n / 4096) % 64, 128 + (n / 64) % 64, 128 + n % 64]

/-- The `%XX` escape of one byte. -/
def percentEscape (b : Nat) : List Char :=
  [Char.ofNat 37, hexDigitUpper (b / 16 % 16), hexDigitUpper (b % 16)]

/-- JS `encodeURIComponent`. -/
def encodeURIComponent (s : String) : String :=
  ⟨s.data.flatMap fun c =>
    if isUriUnreserved c then [c] else (utf8BytesOfChar c).flatMap percentEscape⟩

/-- Hex digit value of a character, if it is one (either case). -/
def hexVal (c : Char) : Option Nat :=
  let n := c.toNat
  if 48 ≤ n && n ≤ 57 then some (n - 48)
  else if 65 ≤ n && n ≤ 70 then some (n - 55)
  else if 97 ≤ n && n ≤ 102 then some (n - 87)
  else none

/-- Strict UTF-8 decoding of a byte list; `none` on any malformed sequence. -/
def utf8DecodeBytes : List Nat → Option (List Char)
  | [] => some []
  | b :: rest =>
    if b < 128 then
      (utf8DecodeBytes rest).map fun cs => Char.ofNat b :: cs
    else if 192 ≤ b && b < 224 then
      match rest with
      | b1 :: rest1 =>
        if 128 ≤ b1 && b1 < 192 then
          let n := (b - 192) * 64 + (b1 - 128)
          if n < 128 then none
          else (utf8DecodeBytes rest1).map fun cs => Char.ofNat n :: cs
        else none
      | _ => none
    else if 224 ≤ b && b < 240 then
      match rest with
      | b1 :: b2 :: rest2 =>
        if (128 ≤ b1 && b1 < 192) && (128 ≤ b2 && b2 < 192) then
          let n := (b - 224) * 4096 + (b1 - 128) * 64 + (b2 - 128)
          if n < 2048 || (55296 ≤ n && n ≤ 57343) then none
          else (utf8DecodeBytes rest2).map fun cs => Char.ofNat n :: cs
        else none
      | _ => none
    else if 240 ≤ b && b < 248 then
      match rest with
      | b1 :: b2 :: b3 :: rest3 =>
        if (128 ≤ b1 && b1 < 192) && (128 ≤ b2 && b2 < 192) && (128 ≤ b3 && b3 < 192) then
          let n := (b - 240) * 262144 + (b1 - 128) * 4096 + (b2 - 128) * 64 + (b3 - 128)
          if n < 65536 || n > 1114111 then none
          else (utf8DecodeBytes rest3).map fun cs => Char.ofNat n :: cs
        else none
      | _ => none
    else none

/-- Turn the characters of a percent-encoded string into the byte sequence it
denotes: `%XX` becomes one byte, any other character contributes its UTF-8
bytes.  `none` on a malformed escape. -/
def percentBytes : List Char → Option (List Nat)
  | [] => some []
  | c :: rest =>
    if c.toNat == 37 then
      match rest with
      | a :: b :: rest2 =>
        match hexVal a, hexVal b with
        | some hi, some lo => (percentBytes rest2).map fun bs => (hi * 16 + lo) :: bs
        | _, _ => none
      | _ => none
    else (percentBytes rest).map fun bs => utf8BytesOfChar c ++ bs

/-- JS `decodeURIComponent`; `none` models a thrown `URIError`. -/
def decodeURIComponent (s : String) : Option String :=
  (percentBytes s.data).bind fun bs => (utf8DecodeBytes bs).map fun cs => ⟨cs⟩

/-! ## URLSearchParams (lenient `application/x-www-form-urlencoded` decoding) -/

/-- Replace `+` with a space (form decoding step). -/
def plusToSpace (s : String) : String :=
  ⟨s.data.map fun c => if c.toNat == 43 then Char.ofNat 32 else c⟩

/-- Lenient form decoding as performed by `URLSearchParams`: `+` means space
and `%XX` escapes are decoded; a malformed input is kept as-is instead of
throwing. -/
def formUrlDecode (s : String) : String :=
  match decodeURIComponent (plusToSpace s) with
  | some r => r
  | none => plusToSpace s

/-- Split a `name=value` component at the first `=`. -/
def splitPair (part : String) : String × String :=
  match jsSplit part "=" with
  | [] => (part, "")
  | [n] => (n, "")
  | n :: vs => (n, String.intercalate "=" vs)

/-- The decoded `(name, value)` pairs of a query/fragment string (without the
leading `?` or `#`). -/
def urlParamsList (s : String) : List (String × String) :=
  (jsSplit s "&").filterMap fun part =>
    if part.isEmpty then none
    else
      let p := splitPair part
      some (formUrlDecode p.1, formUrlDecode p.2)

/-- JS `URLSearchParams.get`: first value bound to `key`, or `null`. -/
def urlParamsGet (s : String) (key : String) : Option String :=
  ((urlParamsList s).find? fun p => p.1 == key).map Prod.snd

/-- Reading `new URLSearchParams(location.search).get(key)` — a leading `?` is dropped. -/
def searchParamsGet (search : String) (key : String) : Option String :=
  urlParamsGet (if jsStartsWith search "?" then jsDrop search 1 else search) key

/-! ## JS number parsing (`parseInt(s, 10)`), `NaN` modelled as `none` -/

/-- JS `parseInt(s, 10)`: skip leading whitespace, optional sign, then leading
decimal digits; `none` when no digits are found (JS `NaN`). -/
def parseIntJs (s : String) : Option Int :=
  let t : String := ⟨s.data.dropWhile isJsWhitespace⟩
  let (neg, u) :=
    if jsStartsWith t "-" then (true, jsDrop t 1)
    else if jsStartsWith t "+" then (false, jsDrop t 1)
    else (false, t)
  let digits := u.data.takeWhile fun c => 48 ≤ c.toNat && c.toNat ≤ 57
  if digits.isEmpty then none
  else
    let v : Int := Int.ofNat (digits.foldl (fun acc c => acc * 10 + (c.toNat - 48)) 0)
    some (if neg then -v else v)

/-- A JS `number` used as a cookie `max-age`: `none` is `NaN` (the attribute
is then ignored by the browser, producing a session cookie). -/
abbrev JsNum := Option Int

/-! ## Cross-domain token store — src/auth/cookie.ts

The browser cookie jar is modelled as an association list of raw
(already percent-encoded) `name = value` entries together with a log of
every `document.cookie` assignment the code performs (name, value and the
`max-age` attribute it carried).  `document.cookie` reads serialize the jar
as `n1=v1; n2=v2; ...`, which is what the getters parse — exactly the
string shape the source splits on `;`. -/

/-- Browser-level inputs of cookie.ts: the optional environment overrides for
the two cookie names and the domain, plus the page's hostname and whether
the transport is https. -/
structure BrowserEnv where
  accessCookieNameEnv : Option String := none
  refreshCookieNameEnv : Option String := none
  cookieDomainEnv : Option String := none
  hostname : String := "localhost"
  https : Bool := false
deriving DecidableEq, Repr

/-- The name `COOKIE_NAME = process.env.REACT_APP_ACCESS_TOKEN_COOKIE_NAME || 'synaptagrid_access_token'`. -/
def COOKIE_NAME (env : BrowserEnv) : String :=
  jsOr env.accessCookieNameEnv "synaptagrid_access_token"

/-- The name `REFRESH_COOKIE_NAME = process.env.REACT_APP_REFRESH_TOKEN_COOKIE_NAME || 'synaptagrid_refresh_token'`. -/
def REFRESH_COOKIE_NAME (env : BrowserEnv) : String :=
  jsOr env.refreshCookieNameEnv "synaptagrid_refresh_token"

/-- Source `getCookieDomain`: env override (with a leading dot added when missing),
`null` on loopback hosts, otherwise the parent (last two labels) domain. -/
def getCookieDomain (env : BrowserEnv) : Option String :=
  match env.cookieDomainEnv with
  | some envDomain =>
    if envDomain.isEmpty then
      -- falsy env value: fall through to the hostname logic
      if env.hostname == "localhost" || env.hostname == "127.0.0.1" then none
      else
        let parts := jsSplit env.hostname "."
        if parts.length ≥ 2 then
          some ("." ++ String.intercalate "." (parts.drop (parts.length - 2)))
        else none
    else if jsStartsWith envDomain "." then some envDomain
    else some ("." ++ envDomain)
  | none =>
    if env.hostname == "localhost" || env.hostname == "127.0.0.1" then none
    else
      let parts := jsSplit env.hostname "."
      if parts.length ≥ 2 then
        some ("." ++ String.intercalate "." (parts.drop (parts.length - 2)))
      else none

/-- One raw cookie entry: percent-encoded name and value. -/
abbrev CookieJar := List (String × String)

/-- A logged `document.cookie` assignment. -/
structure CookieWrite where
  name : String
  value : String
  maxAge : JsNum
deriving DecidableEq, Repr

/-- The browser state the token store mutates. -/
structure Browser where
  jar : CookieJar := []
  writes : List CookieWrite := []
deriving DecidableEq, Repr

/-- Browser semantics of a `document.cookie = "name=value; ...; max-age=n"`
assignment: a non-positive `max-age` deletes the cookie, a positive one (or a
missing/`NaN` one) upserts it.  The assignment is also appended to the log. -/
def documentCookieAssign (b : Browser) (name value : String) (maxAge : JsNum) : Browser :=
  let jarNoOld := b.jar.filter fun p => p.1 ≠ name
  let jar :=
    match maxAge with
    | some n => if n ≤ 0 then jarNoOld else jarNoOld ++ [(name, value)]
    | none => jarNoOld ++ [(name, value)]
  { jar := jar, writes := b.writes ++ [⟨name, value, maxAge⟩] }

/-- The string `document.cookie` evaluates to. -/
def documentCookieRead (jar : CookieJar) : String :=
  String.intercalate "; " (jar.map fun p => p.1 ++ "=" ++ p.2)

/-- Source `setAccessTokenCookie(value, maxAgeSeconds)`. -/
def setAccessTokenCookie (env : BrowserEnv) (value : String) (maxAgeSeconds : JsNum)
    (b : Browser) : Browser :=
  documentCookieAssign b (encodeURIComponent (COOKIE_NAME env))
    (encodeURIComponent value) maxAgeSeconds

/-- Shared body of the two getters: split `document.cookie` on `;`, find the
first entry whose trimmed form starts with `name=`, strip that part, trim,
decode; an empty decoded value or a decode failure yields `null`. -/
def getTokenCookie (name : String) (jar : CookieJar) : Option String :=
  let cookies := jsSplit (documentCookieRead jar) ";"
  match cookies.find? fun cookie => jsStartsWith (jsTrim cookie) (name ++ "=") with
  | none => none
  | some cookie =>
    let value := jsTrim (jsDrop (jsTrim cookie) (jsLength name + 1))
    match decodeURIComponent value with
    | none => none
    | some v => if v.isEmpty then none else some v

/-- Source `getAccessTokenCookie()`. -/
def getAccessTokenCookie (env : BrowserEnv) (jar : CookieJar) : Option String :=
  getTokenCookie (encodeURIComponent (COOKIE_NAME env)) jar

/-- Source `clearAccessTokenCookie()` — writes an empty value with `max-age=0`. -/
def clearAccessTokenCookie (env : BrowserEnv) (b : Browser) : Browser :=
  documentCookieAssign b (encodeURIComponent (COOKIE_NAME env)) "" (some 0)

/-- Source `setRefreshTokenCookie(value, maxAgeSeconds)`. -/
def setRefreshTokenCookie (env : BrowserEnv) (value : String) (maxAgeSeconds : JsNum)
    (b : Browser) : Browser :=
  documentCookieAssign b (encodeURIComponent (REFRESH_COOKIE_NAME env))
    (encodeURIComponent value) maxAgeSeconds

/-- Source `getRefreshTokenCookie()`. -/
def getRefreshTokenCookie (env : BrowserEnv) (jar : CookieJar) : Option String :=
  getTokenCookie (encodeURIComponent (REFRESH_COOKIE_NAME env)) jar

/-- Source `clearRefreshTokenCookie()`. -/
def clearRefreshTokenCookie (env : BrowserEnv) (b : Browser) : Browser :=
  documentCookieAssign b (encodeURIComponent (REFRESH_COOKIE_NAME env)) "" (some 0)

/-! ## Tenant bootstrap resolver — src/contexts/BootstrapContext.tsx

The repository carries two variants of `loadBootstrapConfig`: the current
one, which requires `REACT_APP_CONTROL_PLANE_BASE_URL` and leaves no config
installed on failure, and a legacy one, which falls back to a config built
from environment variables (with hardcoded defaults) when the bootstrap
request fails.  Both are modelled.  The `BootstrapConfig` structure merges
the two declared service shapes (`idp_url` in the current variant,
`keycloak_url` in the legacy one) as optional fields. -/

structure OrgInfo where
  guid : String
  slug : String
  name : String
  orgType : String
  subdomain : Option String
deriving DecidableEq, Repr

structure Services where
  authn_url : String
  authz_url : String
  idp_url : Option String := none
  keycloak_url : Option String := none
  region : String
deriving DecidableEq, Repr

structure AuthUrls where
  sso_config_url : String
  auth_config_url : String
deriving DecidableEq, Repr

structure AuthProvider where
  provider_type : String
  issuer : String
  authorization_endpoint : String
  token_endpoint : String
  userinfo_endpoint : String
  end_session_endpoint : String
  jwks_uri : String
  client_id : String
  redirect_uri : String
  oauth_callback_url : Option String := none
  social_providers : Option (List String) := none
  scope : String
  response_type : String
  flow : String
  sso_required : Bool
  sso_button_text : Option String := none
  allow_social_login : Bool
  kc_idp_hint : Option String := none
deriving DecidableEq, Repr

structure BootstrapConfig where
  organization : OrgInfo
  services : Services
  auth : AuthUrls
  auth_provider : Option AuthProvider := none
deriving DecidableEq, Repr

/-- The result of the bootstrap `fetch` as seen by the resolver.  `ok` is a
2xx response with a parsed body; `httpError` is a non-success status whose
body the code tries to read `detail` / `message` from (`JSON.parse` is a
platform primitive, so the parsed fields are carried here); `networkError`
is a rejected fetch with the error message of the exception. -/
inductive BootstrapFetchResult where
  | ok (config : BootstrapConfig)
  | httpError (status : Nat) (detail : Option String) (message : Option String)
  | networkError (errMessage : String)
deriving DecidableEq, Repr

/-- Returns `true` when the endpoint was unreachable or returned a non-success
status. -/
def BootstrapFetchResult.failed : BootstrapFetchResult → Bool
  | .ok _ => false
  | _ => true

/-- Environment variables the resolver variants read. -/
structure ResolverEnv where
  controlPlaneBaseUrl : Option String := none
  authnBaseUrl : Option String := none
  authzBaseUrl : Option String := none
  oidcIssuer : Option String := none
  fetchResult : BootstrapFetchResult
deriving DecidableEq, Repr

/-- State produced by one run of a `loadBootstrapConfig` variant. -/
structure ResolverState where
  config : Option BootstrapConfig
  error : Option String
  loading : Bool
deriving DecidableEq, Repr

/-- Default user-facing message when the error body yields no usable text. -/
def configErrorFallbackMsg : String :=
  "Failed to load configuration. Try again or contact your administrator."

/-- The chain `err.detail || err.message || <fallback>` with JS truthiness. -/
def httpErrorMessage (detail message : Option String) : String :=
  jsOr detail (jsOr message configErrorFallbackMsg)

/-- Current `loadBootstrapConfig`: the control-plane URL must come from the
environment; on fetch failure the error is stored and the config is reset
to `null`. -/
def loadBootstrapConfig (env : ResolverEnv) : ResolverState :=
  if jsFalsy env.controlPlaneBaseUrl then
    { config := none, error := some "REACT_APP_CONTROL_PLANE_BASE_URL is required",
      loading := false }
  else
    match env.fetchResult with
    | .ok data => { config := some data, error := none, loading := false }
    | .httpError _ detail message =>
      { config := none, error := some (httpErrorMessage detail message), loading := false }
    | .networkError msg => { config := none, error := some msg, loading := false }

/-- The `keycloak_url` of the legacy fallback config:
`process.env.REACT_APP_OIDC_ISSUER?.split('/realms/')[0] || <default>`. -/
def legacyFallbackKeycloakUrl (env : ResolverEnv) : String :=
  match env.oidcIssuer with
  | none => "https://keycloak.local.synaptagrid.io:5281"
  | some s =>
    jsOrS ((jsSplit s "/realms/").headD "") "https://keycloak.local.synaptagrid.io:5281"

/-- The fallback `BootstrapConfig` the legacy resolver installs when the
bootstrap request fails. -/
def legacyFallbackConfig (env : ResolverEnv) : BootstrapConfig :=
  { organization :=
      { guid := "", slug := "synaptagrid", name := "SynaptaGrid", orgType := "system",
        subdomain := none }
    services :=
      { authn_url := jsOr env.authnBaseUrl "https://authn-api.local.synaptagrid.io:5209"
        authz_url := jsOr env.authzBaseUrl "https://authz-api.local.synaptagrid.io:5206"
        keycloak_url := some (legacyFallbackKeycloakUrl env)
        region := "us-east-1" }
    auth := { sso_config_url := "", auth_config_url := "" } }

/-- Legacy `loadBootstrapConfig`: same fetch, but on failure it installs the
environment-derived fallback config instead of leaving the config empty. -/
def loadBootstrapConfigLegacy (env : ResolverEnv) : ResolverState :=
  match env.fetchResult with
  | .ok data => { config := some data, error := none, loading := false }
  | .httpError _ detail message =>
    { config := some (legacyFallbackConfig env),
      error := some (httpErrorMessage detail message), loading := false }
  | .networkError msg =>
    { config := some (legacyFallbackConfig env), error := some msg, loading := false }

/-- The effect keeping the module-level `cachedBootstrapConfig` up to date:
it overwrites the cache only when the context holds a config. -/
def updateCachedBootstrapConfig (cache : Option BootstrapConfig)
    (config : Option BootstrapConfig) : Option BootstrapConfig :=
  match config with
  | some c => some c
  | none => cache

/-! ## PKCE flow initiator and token exchange client — src/auth/oidc.ts -/

/-- Environment variables and window state read by the OIDC helpers. -/
structure OidcEnv where
  oidcIssuerEnv : Option String := none
  oidcRedirectUriEnv : Option String := none
  authnBaseUrlEnv : Option String := none
  windowOrigin : String := "http://localhost:3000"
deriving DecidableEq, Repr

/-- Source `getOidcIssuer()`: issuer from the cached bootstrap config when truthy,
else constructed from `keycloak_url`, else the environment variable, else a
hardcoded default. -/
def getOidcIssuer (env : OidcEnv) (config : Option BootstrapConfig) : String :=
  match config with
  | some c =>
    match c.auth_provider with
    | some ap =>
      if !ap.issuer.isEmpty then ap.issuer
      else match c.services.keycloak_url with
        | some k =>
          if !k.isEmpty then k ++ "/realms/synaptagrid"
          else jsOr env.oidcIssuerEnv "http://host.docker.internal:5281/realms/synaptagrid"
        | none => jsOr env.oidcIssuerEnv "http://host.docker.internal:5281/realms/synaptagrid"
    | none =>
      match c.services.keycloak_url with
      | some k =>
        if !k.isEmpty then k ++ "/realms/synaptagrid"
        else jsOr env.oidcIssuerEnv "http://host.docker.internal:5281/realms/synaptagrid"
      | none => jsOr env.oidcIssuerEnv "http://host.docker.internal:5281/realms/synaptagrid"
  | none => jsOr env.oidcIssuerEnv "http://host.docker.internal:5281/realms/synaptagrid"

/-- Source `getOidcClientId()`. -/
def getOidcClientId (config : Option BootstrapConfig) : String :=
  match config with
  | some c =>
    match c.auth_provider with
    | some ap => if !ap.client_id.isEmpty then ap.client_id else "synaptagrid-local"
    | none => "synaptagrid-local"
  | none => "synaptagrid-local"

/-- Strip trailing slashes (the `replace(/\/+\s*$/, '')` applied after
`trim`, where no trailing whitespace remains). -/
def dropTrailingSlashes (s : String) : String :=
  ⟨(s.data.reverse.dropWhile fun c => c.toNat == 47).reverse⟩

/-- Source `getRedirectUri()`: `oauth_callback_url ?? redirect_uri` from the cached
config when truthy after trimming, else derived from `services.authn_url`,
else the environment variable, else `origin + '/auth/callback'`. -/
def getRedirectUri (env : OidcEnv) (config : Option BootstrapConfig) : String :=
  let redirect : Option String :=
    match config with
    | some c =>
      match c.auth_provider with
      | some ap =>
        match ap.oauth_callback_url with
        | some u => some u
        | none => some ap.redirect_uri
      | none => none
    | none => none
  match redirect with
  | some r =>
    if !r.isEmpty && !(jsTrim r).isEmpty then jsTrim r
    else
      redirectUriFromAuthn env config
  | none => redirectUriFromAuthn env config
where
  /-- The `authn_url`-derived and environment fallbacks of `getRedirectUri`. -/
  redirectUriFromAuthn (env : OidcEnv) (config : Option BootstrapConfig) : String :=
    let authnBase : Option String := config.map fun c => c.services.authn_url
    match authnBase with
    | some a =>
      if !a.isEmpty && !(jsTrim a).isEmpty then
        dropTrailingSlashes (jsTrim a) ++ "/v1/authn/oauth/callback"
      else jsOr env.oidcRedirectUriEnv (env.windowOrigin ++ "/auth/callback")
    | none => jsOr env.oidcRedirectUriEnv (env.windowOrigin ++ "/auth/callback")

/-- Lowercase hex digit. -/
def hexDigitLower (n : Nat) : Char :=
  if n < 10 then Char.ofNat (48 + n) else Char.ofNat (87 + n)

/-- JS `b.toString(16).padStart(2, '0')` for a byte. -/
def byteToHexPair (b : Nat) : String :=
  ⟨[hexDigitLower (b % 256 / 16), hexDigitLower (b % 16)]⟩

/-- Source `randomString(size)`: with a secure random source, `size` random bytes
each rendered as two lowercase hex digits; otherwise `size` single random
hex digits.  The entropy (`crypto.getRandomValues` / `Math.random`) is an
input. -/
def randomString (cryptoAvailable : Bool) (entropy : Nat → Nat) : Nat → String
  | 0 => ""
  | n + 1 =>
    randomString cryptoAvailable entropy n ++
      (if cryptoAvailable then byteToHexPair (entropy n)
       else ⟨[hexDigitLower (entropy n % 16)]⟩)

/-- The single-tab session storage slots used by the PKCE flow
(`synaptagrid_oidc_state` / `synaptagrid_oidc_verifier`);
`none` models an absent key. -/
structure SessionStore where
  oidcState : Option String := none
  oidcVerifier : Option String := none
deriving DecidableEq, Repr

/-- The storage writes `startAuthRedirect` performs before redirecting:
`state = randomString(16)`, `verifier = randomString(64)`. -/
def startAuthRedirectStore (cryptoAvailable : Bool) (stateEntropy verifierEntropy : Nat → Nat) :
    SessionStore :=
  { oidcState := some (randomString cryptoAvailable stateEntropy 16)
    oidcVerifier := some (randomString cryptoAvailable verifierEntropy 64) }

/-- Form body of the `authorization_code` grant POSTed to the token
endpoint. -/
structure TokenRequestBody where
  grant_type : String
  client_id : String
  code : String
  redirect_uri : String
  code_verifier : String
deriving DecidableEq, Repr

/-- What `exchangeCodeForTokens` does before any network traffic: either it
throws `Invalid auth state`, or it reaches the `fetch` of the token endpoint
with a concrete request body. -/
inductive ExchangeStep where
  | invalidAuthState
  | tokenRequest (endpoint : String) (body : TokenRequestBody)
deriving DecidableEq, Repr

/-- The validation-and-request-construction part of
`exchangeCodeForTokens({code, state})`: `throw new Error('Invalid auth
state')` when `!expectedState || expectedState !== state || !verifier`
(JS falsiness: absent or empty), otherwise the POST to
`<issuer>/protocol/openid-connect/token`. -/
def exchangeCodeForTokensStep (env : OidcEnv) (cached : Option BootstrapConfig)
    (sess : SessionStore) (code state : String) : ExchangeStep :=
  if jsFalsy sess.oidcState || sess.oidcState ≠ some state || jsFalsy sess.oidcVerifier then
    .invalidAuthState
  else
    .tokenRequest (getOidcIssuer env cached ++ "/protocol/openid-connect/token")
      { grant_type := "authorization_code"
        client_id := getOidcClientId cached
        code := code
        redirect_uri := getRedirectUri env cached
        code_verifier := sess.oidcVerifier.getD "" }

/-- JSON token response of the exchange / refresh grants. -/
structure TokenResponse where
  access_token : String
  id_token : String
  expires_in : Int
  refresh_token : Option String := none
  refresh_expires_in : Option Int := none
  token_type : String := "Bearer"
  scope : Option String := none
deriving DecidableEq, Repr

/-! ## Callback orchestrator — src/App.tsx (AuthCallbackPage)

The driving `useEffect` is modelled as a step function on the page state.
Network results (token exchange, `bootstrap/from-id-token`, `/v1/authn/me`)
are environment inputs: `none` models a rejected fetch or a non-success
response (both reach the same `catch`).  Counters record how many network
calls of each kind the step has performed. -/

inductive Status where
  | loading
  | error
  | ready
deriving DecidableEq, Repr

inductive HintAction where
  | ok
  | contact_admin
  | personal_org_created
deriving DecidableEq, Repr

structure OrgSummary where
  guid : String
  slug : String
  name : String
deriving DecidableEq, Repr

structure AccessHint where
  action : HintAction
  reason : Option String := none
  organization : Option OrgSummary := none
  invited : Option Bool := none
deriving DecidableEq, Repr

structure BootUser where
  guid : String
  email : String
  email_verified : Bool := true
  name : Option String := none
  display_name : Option String := none
deriving DecidableEq, Repr

structure BootstrapResponse where
  user : BootUser
  personal_org : Option OrgSummary := none
  created_user : Bool := false
  created_personal_org : Bool := false
  access_hint : AccessHint
deriving DecidableEq, Repr

structure MeUser where
  email : String
  display_name : Option String := none
  name : Option String := none
deriving DecidableEq, Repr

structure CurrentUserResponse where
  user : MeUser
deriving DecidableEq, Repr

/-- Tokens carried in the callback URL fragment. -/
structure FragmentTokens where
  access_token : String
  refresh_token : Option String := none
  expires_in : JsNum
  id_token : Option String := none
deriving DecidableEq, Repr

/-- Source `parseFragmentTokens(hash)`: `null` unless the hash starts with `#` and
carries a truthy `access_token`; `expires_in` defaults to `'3600'` before
`parseInt`. -/
def parseFragmentTokens (hash : String) : Option FragmentTokens :=
  if hash.isEmpty || !jsStartsWith hash "#" then none
  else
    let params := jsDrop hash 1
    match urlParamsGet params "access_token" with
    | none => none
    | some access_token =>
      if access_token.isEmpty then none
      else
        some { access_token := access_token
               refresh_token := urlParamsGet params "refresh_token"
               expires_in := parseIntJs ((urlParamsGet params "expires_in").getD "3600")
               id_token := urlParamsGet params "id_token" }

/-- The chain `display_name ?? name ?? email.split('@')[0] ?? 'User'` for the
bootstrap user. -/
def displayNameOfBootUser (u : BootUser) : String :=
  u.display_name.getD (u.name.getD ((jsSplit u.email "@").headD "User"))

/-- The same chain for the `/me` user. -/
def displayNameOfMeUser (u : MeUser) : String :=
  u.display_name.getD (u.name.getD ((jsSplit u.email "@").headD "User"))

/-- React state (plus instrumentation) of the auth callback page. -/
structure PageState where
  hasExchanged : Bool := false
  status : Status := .loading
  message : String := "Completing sign-in..."
  accessHint : Option AccessHint := none
  userEmail : Option String := none
  marketingUser : Option (String × String) := none
  browser : Browser := {}
  exchangeInvocations : Nat := 0
  exchangeNetworkCalls : Nat := 0
  bootstrapFromIdTokenCalls : Nat := 0
  meCalls : Nat := 0
deriving DecidableEq, Repr

/-- Everything one evaluation of the driving effect can observe. -/
structure CallbackEnv where
  search : String := ""
  hash : String := ""
  bootstrapConfig : Option BootstrapConfig := none
  cachedConfig : Option BootstrapConfig := none
  oidcEnv : OidcEnv := {}
  benv : BrowserEnv := {}
  sess : SessionStore := {}
  exchangeNetResult : Option TokenResponse := none
  bootstrapNetResult : Option BootstrapResponse := none
  meNetResult : Option CurrentUserResponse := none
deriving Repr

def unableToCompleteMsg : String := "Unable to complete sign-in. Please try again."

def portalSuccessMsg : String := "Success! You can go to the Portal when ready."

def additionalActionMsg : String := "Additional action required."

/-- Hint message chosen after a successful bootstrap resolution. -/
def hintMessage (hint : AccessHint) : String :=
  if hint.action == .personal_org_created || hint.action == .ok then portalSuccessMsg
  else additionalActionMsg

/-- Error-parameter branch: sets the latch, then `error` status, then a
message decoded from `error_description` when present (the decode keeps the
prior message if `decodeURIComponent` would throw). -/
def errorParamBranch (env : CallbackEnv) (s : PageState) : PageState :=
  let s1 := { s with hasExchanged := true, status := .error }
  match searchParamsGet env.search "error_description" with
  | some d =>
    if d.isEmpty then { s1 with message := "Authentication failed. Please try again." }
    else
      match decodeURIComponent (plusToSpace d) with
      | some m => { s1 with message := m }
      | none => s1
  | none => { s1 with message := "Authentication failed. Please try again." }

/-- The `authn_url` used by the fragment branch:
`bootstrapConfig?.services?.authn_url || env || ''`. -/
def fragmentAuthnBaseUrl (env : CallbackEnv) : String :=
  match env.bootstrapConfig with
  | some c => jsOrS c.services.authn_url (jsOr env.oidcEnv.authnBaseUrlEnv "")
  | none => jsOr env.oidcEnv.authnBaseUrlEnv ""

/-- Case A: fragment tokens.  Latch, persist the pair (refresh cookie with a
fixed 30-day max-age), then resolve the identity: `bootstrap/from-id-token`
when an `id_token` rides along and an AuthN URL is known (its failure is
`error`), else `/v1/authn/me` (its failure still reaches `ready`). -/
def fragmentBranch (env : CallbackEnv) (tokens : FragmentTokens) (s : PageState) : PageState :=
  let s := { s with hasExchanged := true }
  let authnBaseUrl := fragmentAuthnBaseUrl env
  let b := setAccessTokenCookie env.benv tokens.access_token tokens.expires_in s.browser
  let b :=
    if jsTruthy tokens.refresh_token then
      setRefreshTokenCookie env.benv (tokens.refresh_token.getD "") (some (86400 * 30)) b
    else b
  let s := { s with browser := b }
  if jsTruthy tokens.id_token && !authnBaseUrl.isEmpty then
    let s := { s with bootstrapFromIdTokenCalls := s.bootstrapFromIdTokenCalls + 1 }
    match env.bootstrapNetResult with
    | some data =>
      { s with accessHint := some data.access_hint
               userEmail := some data.user.email
               status := .ready
               marketingUser := some (displayNameOfBootUser data.user, data.user.email)
               message := hintMessage data.access_hint }
    | none => { s with status := .error, message := unableToCompleteMsg }
  else
    if !authnBaseUrl.isEmpty then
      let s := { s with meCalls := s.meCalls + 1 }
      match env.meNetResult with
      | some data =>
        { s with userEmail := some data.user.email
                 accessHint := some { action := .ok, reason := none }
                 status := .ready
                 marketingUser := some (displayNameOfMeUser data.user, data.user.email)
                 message := portalSuccessMsg }
      | none =>
        { s with userEmail := none
                 accessHint := some { action := .ok, reason := none }
                 status := .ready
                 message := portalSuccessMsg }
    else
      { s with accessHint := some { action := .ok, reason := none }
               status := .ready
               message := portalSuccessMsg }

/-- Case B: query `code` + `state`.  Latch is set, then
`exchangeCodeForTokens` runs; on token success the bootstrap resolution runs
and only on its success are the cookies written (access with `expires_in`,
refresh with `refresh_expires_in ?? 1800`). -/
def codeBranch (env : CallbackEnv) (code state : String) (s : PageState) : PageState :=
  let s := { s with hasExchanged := true, exchangeInvocations := s.exchangeInvocations + 1 }
  match exchangeCodeForTokensStep env.oidcEnv env.cachedConfig env.sess code state with
  | .invalidAuthState => { s with status := .error, message := unableToCompleteMsg }
  | .tokenRequest _ _ =>
    let s := { s with exchangeNetworkCalls := s.exchangeNetworkCalls + 1 }
    match env.exchangeNetResult with
    | none => { s with status := .error, message := unableToCompleteMsg }
    | some tokens =>
      let s := { s with bootstrapFromIdTokenCalls := s.bootstrapFromIdTokenCalls + 1 }
      match env.bootstrapNetResult with
      | none => { s with status := .error, message := unableToCompleteMsg }
      | some data =>
        let s :=
          { s with accessHint := some data.access_hint
                   userEmail := some data.user.email
                   status := .ready
                   marketingUser := some (displayNameOfBootUser data.user, data.user.email) }
        let b := setAccessTokenCookie env.benv tokens.access_token (some tokens.expires_in) s.browser
        let b :=
          if jsTruthy tokens.refresh_token then
            setRefreshTokenCookie env.benv (tokens.refresh_token.getD "")
              (some (tokens.refresh_expires_in.getD 1800)) b
          else b
        { s with browser := b, message := hintMessage data.access_hint }

/-- One evaluation of the driving effect of `AuthCallbackPage`. -/
def callbackStep (env : CallbackEnv) (s : PageState) : PageState :=
  if s.hasExchanged then s
  else
    let error := searchParamsGet env.search "error"
    let actionStatus := searchParamsGet env.search "kc_action_status"
    if jsTruthy error || actionStatus == some "error" then errorParamBranch env s
    else
      match parseFragmentTokens env.hash with
      | some tokens => fragmentBranch env tokens s
      | none =>
        match env.bootstrapConfig with
        | none => { s with message := "Loading configuration..." }
        | some _ =>
          let code := searchParamsGet env.search "code"
          let state := searchParamsGet env.search "state"
          if jsFalsy code || jsFalsy state then
            { s with status := .error, message := "Missing authentication data." }
          else codeBranch env (code.getD "") (state.getD "") s

/-- Re-evaluating the effect over a sequence of environments (re-renders). -/
def runCallback (envs : List CallbackEnv) (s : PageState) : PageState :=
  envs.foldl (fun st env => callbackStep env st) s

/-! ## Refresh scheduler — src/hooks/useTokenRefresh.ts -/

/-- Environment of the scheduler: cookie environment, the clock, the
platform decoding of the JWT payload's `exp` claim
(`JSON.parse(atob(part)).exp`, `none` when it throws), and the outcome of
the `refresh_token` grant (`none` = rejected or non-success). -/
structure RefreshEnv where
  benv : BrowserEnv := {}
  nowMs : Int := 0
  decodeJwtExp : String → Option Int := fun _ => none
  refreshNetResult : Option TokenResponse := none

/-- Scheduler state: the cookie jar, the single armed timer (its delay in
ms), the count of refresh-grant network calls, and a forced navigation
target. -/
structure SchedulerState where
  browser : Browser := {}
  timerDelayMs : Option Int := none
  refreshNetworkCalls : Nat := 0
  locationHref : Option String := none

/-- Source `scheduleRefresh()`: clears any prior timer, reads both cookies (absent
or empty reads as `null`), decodes the access token's expiry and arms one
timer at `max(0, (exp*1000 - now) - 60000)`; arms nothing when a token is
missing or decoding throws. -/
def scheduleRefresh (env : RefreshEnv) (s : SchedulerState) : SchedulerState :=
  let s := { s with timerDelayMs := none }
  let accessToken := getAccessTokenCookie env.benv s.browser.jar
  let refreshToken := getRefreshTokenCookie env.benv s.browser.jar
  match accessToken, refreshToken with
  | some tok, some _ =>
    match (jsSplit tok ".").get? 1 with
    | none => s
    | some payloadPart =>
      match env.decodeJwtExp payloadPart with
      | none => s
      | some exp =>
        let expiresAt := exp * 1000
        let timeUntilExpiry := expiresAt - env.nowMs
        let refreshIn := max 0 (timeUntilExpiry - 60000)
        { s with timerDelayMs := some refreshIn }
  | _, _ => s

/-- The timer callback: one `refreshAccessToken` network call; on success
persist the new pair (access with `expires_in`, refresh only when returned,
with `refresh_expires_in ?? 1800`) and re-arm via `scheduleRefresh`; on
failure clear both cookies and navigate to `/login` — no retry, no new
timer. -/
def refreshTimerFire (env : RefreshEnv) (s : SchedulerState) : SchedulerState :=
  let s := { s with timerDelayMs := none,
                    refreshNetworkCalls := s.refreshNetworkCalls + 1 }
  match env.refreshNetResult with
  | some newTokens =>
    let b := setAccessTokenCookie env.benv newTokens.access_token
      (some newTokens.expires_in) s.browser
    let b :=
      if jsTruthy newTokens.refresh_token then
        setRefreshTokenCookie env.benv (newTokens.refresh_token.getD "")
          (some (newTokens.refresh_expires_in.getD 1800)) b
      else b
    scheduleRefresh env { s with browser := b }
  | none =>
    let b := clearAccessTokenCookie env.benv s.browser
    let b := clearRefreshTokenCookie env.benv b
    { s with browser := b, locationHref := some "/login" }

/-! ## Shared sample values (used to instantiate theorems on concrete inputs) -/

/-- A representative resolved auth-provider descriptor. -/
def sampleAuthProvider : AuthProvider :=
  { provider_type := "oidc"
    issuer := "https://idp.example.com/realms/acme"
    authorization_endpoint := "https://idp.example.com/realms/acme/protocol/openid-connect/auth"
    token_endpoint := "https://idp.example.com/realms/acme/protocol/openid-connect/token"
    userinfo_endpoint := "https://idp.example.com/realms/acme/protocol/openid-connect/userinfo"
    end_session_endpoint := "https://idp.example.com/realms/acme/protocol/openid-connect/logout"
    jwks_uri := "https://idp.example.com/realms/acme/protocol/openid-connect/certs"
    client_id := "acme-client"
    redirect_uri := "https://authn.example.com/v1/authn/oauth/callback"
    oauth_callback_url := some "https://authn.example.com/v1/authn/oauth/callback"
    scope := "openid email profile"
    response_type := "code"
    flow := "pkce"
    sso_required := false
    allow_social_login := true }

/-- A representative resolved tenant configuration. -/
def sampleConfig : BootstrapConfig :=
  { organization :=
      { guid := "org-1", slug := "acme", name := "Acme", orgType := "tenant", subdomain := none }
    services :=
      { authn_url := "https://authn.example.com", authz_url := "https://authz.example.com",
        region := "eu-west-1" }
    auth := { sso_config_url := "", auth_config_url := "" }
    auth_provider := some sampleAuthProvider }

/-- A browser that already holds an unrelated cookie and stale token cookies. -/
def sampleBrowser : Browser :=
  { jar := [("foo", "bar"), ("synaptagrid_access_token", "old"),
            ("synaptagrid_refresh_token", "oldr")] }

/-- A representative successful account-resolution response. -/
def sampleBootstrapResponse : BootstrapResponse :=
  { user := { guid := "u1", email := "ada@acme.io" }
    access_hint := { action := .ok, reason := none } }

/-- A representative token response of the code exchange. -/
def sampleTokenResponse : TokenResponse :=
  { access_token := "at1", id_token := "idt1", expires_in := 300,
    refresh_token := some "rt1", refresh_expires_in := some 1209600 }

/-- A session store as left by the flow initiator. -/
def sampleSession : SessionStore := { oidcState := some "st1", oidcVerifier := some "ver1" }

/-- A callback environment for the code+state shape with every network call
succeeding. -/
def sampleCodeEnv : CallbackEnv :=
  { search := "?code=abc&state=st1"
    bootstrapConfig := some sampleConfig
    cachedConfig := some sampleConfig
    sess := sampleSession
    exchangeNetResult := some sampleTokenResponse
    bootstrapNetResult := some sampleBootstrapResponse }

/-- Fragment tokens of a social callback (no id_token). -/
def sampleFragTokens : FragmentTokens :=
  { access_token := "tok2", expires_in := some 3600 }

/-! ## Claim theorems -/

/-- C9: token-store round-trip.  On a browser already holding an unrelated
cookie and stale token values: `setAccessTokenCookie("tok123", 3600)`
followed by `getAccessTokenCookie()` returns `"tok123"`, and
`clearAccessTokenCookie()` followed by `getAccessTokenCookie()` returns
`null`; symmetrically for the refresh-token operations. -/
theorem C9_token_store_roundtrip :
    getAccessTokenCookie {}
      (setAccessTokenCookie {} "tok123" (some 3600) sampleBrowser).jar = some "tok123" ∧
    getAccessTokenCookie {}
      (clearAccessTokenCookie {}
        (setAccessTokenCookie {} "tok123" (some 3600) sampleBrowser)).jar = none ∧
    getRefreshTokenCookie {}
      (setRefreshTokenCookie {} "tok123" (some 3600) sampleBrowser).jar = some "tok123" ∧
    getRefreshTokenCookie {}
      (clearRefreshTokenCookie {}
        (setRefreshTokenCookie {} "tok123" (some 3600) sampleBrowser)).jar = none := by
  decide

/-- C10: a token cookie present with an empty value reads back as `null`
(not the empty string), both when third-party state holds the raw empty
entry and after `set("", n)`; hence the set/get round-trip holds only for
non-empty token strings. -/
theorem C10_empty_cookie_reads_null :
    getAccessTokenCookie {} [("synaptagrid_access_token", "")] = none ∧
    getAccessTokenCookie {}
      (setAccessTokenCookie {} "" (some 3600) sampleBrowser).jar = none ∧
    getRefreshTokenCookie {} [("synaptagrid_refresh_token", "")] = none ∧
    getRefreshTokenCookie {}
      (setRefreshTokenCookie {} "" (some 3600) sampleBrowser).jar = none := by
  decide

/-- C3 counterexample: with no resolved TenantConfig (and no environment
overrides), the OIDC helpers return hardcoded endpoint constants — the
issuer falls back to the literal docker URL, the client id to
`synaptagrid-local` and the redirect URI to the window origin — refuting
"no operation ever uses a hardcoded endpoint constant, including when no
TenantConfig has been resolved yet". -/
theorem C3_counterexample :
    getOidcIssuer {} none = "http://host.docker.internal:5281/realms/synaptagrid" ∧
    getOidcClientId none = "synaptagrid-local" ∧
    getRedirectUri {} none = "http://localhost:3000/auth/callback" := by
  decide

/-- C3 (amended): the identity-provider parameters come from the resolved
TenantConfig whenever it supplies them (a non-empty `issuer`, `client_id`
and `oauth_callback_url` take precedence), but with no TenantConfig
resolved the helpers fall back to environment variables and finally to the
hardcoded defaults. -/
theorem C3_endpoints_from_config (env : OidcEnv) (cfg : BootstrapConfig)
    (ap : AuthProvider) (hap : cfg.auth_provider = some ap) :
    (ap.issuer.isEmpty = false → getOidcIssuer env (some cfg) = ap.issuer) ∧
    (ap.client_id.isEmpty = false → getOidcClientId (some cfg) = ap.client_id) ∧
    (∀ u, ap.oauth_callback_url = some u → u.isEmpty = false →
      (jsTrim u).isEmpty = false → getRedirectUri env (some cfg) = jsTrim u) ∧
    getOidcIssuer env none =
      jsOr env.oidcIssuerEnv "http://host.docker.internal:5281/realms/synaptagrid" ∧
    getOidcClientId none = "synaptagrid-local" ∧
    getRedirectUri env none =
      jsOr env.oidcRedirectUriEnv (env.windowOrigin ++ "/auth/callback") := by
  refine ⟨?_, ?_, ?_, ?_, ?_, ?_⟩
  · intro hiss
    simp [getOidcIssuer, hap, hiss]
  · intro hcid
    simp [getOidcClientId, hap, hcid]
  · intro u hu hne htrim
    simp [getRedirectUri, hap, hu, hne, htrim]
  · simp [getOidcIssuer]
  · simp [getOidcClientId]
  · simp [getRedirectUri, getRedirectUri.redirectUriFromAuthn]

/-- Closed instantiation of `C3_endpoints_from_config` at the sample
tenant configuration. -/
theorem C3_endpoints_from_config_witness :
    getOidcIssuer {} (some sampleConfig) = "https://idp.example.com/realms/acme" ∧
    getOidcClientId (some sampleConfig) = "acme-client" ∧
    getRedirectUri {} (some sampleConfig) = "https://authn.example.com/v1/authn/oauth/callback" := by
  have h := C3_endpoints_from_config {} sampleConfig sampleAuthProvider (by decide)
  exact ⟨by rw [h.1 (by decide)]; decide,
         by rw [h.2.1 (by decide)]; decide,
         by rw [h.2.2.1 "https://authn.example.com/v1/authn/oauth/callback" (by decide) (by decide) (by decide)]; decide⟩

/-- C4 counterexample: the legacy resolver variant (the catch block at the
cited lines) does install a TenantConfig when the bootstrap fetch fails —
on a network error it surfaces the error *and* sets the config to the
environment-derived fallback, which the cache effect then installs —
refuting "no TenantConfig is installed in the process-wide cache". -/
theorem C4_counterexample :
    (loadBootstrapConfigLegacy { fetchResult := .networkError "Failed to fetch" }).config =
      some (legacyFallbackConfig { fetchResult := .networkError "Failed to fetch" }) ∧
    updateCachedBootstrapConfig none
      (loadBootstrapConfigLegacy { fetchResult := .networkError "Failed to fetch" }).config ≠
      none := by
  decide

/-- C4 (amended): when the tenant-resolution fetch is unreachable or returns
a non-success status, both resolver variants surface an error to the
caller; the current variant installs no TenantConfig (the cache is left
unchanged), while the legacy variant installs the environment-derived
fallback config instead. -/
theorem C4_resolution_failure (env : ResolverEnv)
    (hfail : env.fetchResult.failed = true) :
    (loadBootstrapConfig env).error ≠ none ∧
    (loadBootstrapConfig env).config = none ∧
    (∀ cache, updateCachedBootstrapConfig cache (loadBootstrapConfig env).config = cache) ∧
    (loadBootstrapConfigLegacy env).error ≠ none ∧
    (loadBootstrapConfigLegacy env).config = some (legacyFallbackConfig env) := by
  cases hf : env.fetchResult with
  | ok d => rw [hf] at hfail; simp [BootstrapFetchResult.failed] at hfail
  | httpError st detail message =>
    by_cases hcp : jsFalsy env.controlPlaneBaseUrl
    · simp [loadBootstrapConfig, loadBootstrapConfigLegacy, hf, hcp,
        updateCachedBootstrapConfig]
    · simp only [Bool.not_eq_true] at hcp
      simp [loadBootstrapConfig, loadBootstrapConfigLegacy, hf, hcp,
        updateCachedBootstrapConfig]
  | networkError msg =>
    by_cases hcp : jsFalsy env.controlPlaneBaseUrl
    · simp [loadBootstrapConfig, loadBootstrapConfigLegacy, hf, hcp,
        updateCachedBootstrapConfig]
    · simp only [Bool.not_eq_true] at hcp
      simp [loadBootstrapConfig, loadBootstrapConfigLegacy, hf, hcp,
        updateCachedBootstrapConfig]

/-- Closed instantiation of `C4_resolution_failure` at a concrete failed
fetch (HTTP 503 with an unparseable body). -/
theorem C4_resolution_failure_witness :
    (loadBootstrapConfig
      { controlPlaneBaseUrl := some "https://cp.example.com",
        fetchResult := .httpError 503 none none }).config = none ∧
    updateCachedBootstrapConfig none
      (loadBootstrapConfig
        { controlPlaneBaseUrl := some "https://cp.example.com",
          fetchResult := .httpError 503 none none }).config = none := by
  have h := C4_resolution_failure
    { controlPlaneBaseUrl := some "https://cp.example.com",
      fetchResult := .httpError 503 none none } (by decide)
  exact ⟨h.2.1, h.2.2.1 none⟩

/-- JS falsiness of a stored string value means: absent, or present but
empty. -/
theorem jsFalsy_eq_true_iff (o : Option String) :
    jsFalsy o = true ↔ o = none ∨ o = some "" := by
  cases o with
  | none => simp [jsFalsy, jsTruthy]
  | some s =>
    simp only [jsFalsy, jsTruthy, Bool.not_not, Option.some.injEq, false_or,
      reduceCtorEq]
    exact String.isEmpty_iff s

/-- JS falsiness of a present value is emptiness of the string. -/
theorem jsFalsy_some (x : String) : jsFalsy (some x) = x.isEmpty := by
  simp [jsFalsy, jsTruthy]

/-- Function `randomString` never returns the empty string for a positive size
(each step appends one or two hex digits). -/
theorem randomString_ne_empty (c : Bool) (e : Nat → Nat) (n : Nat) (h : 0 < n) :
    randomString c e n ≠ "" := by
  cases n with
  | zero => exact absurd h (by omega)
  | succ m =>
    intro hEq
    have hdata : (randomString c e (m + 1)).data = [] := by rw [hEq]
    rw [randomString] at hdata
    rw [String.data_append] at hdata
    rcases List.append_eq_nil.mp hdata with ⟨_, h2⟩
    split at h2 <;> simp [byteToHexPair] at h2

/-- C2 counterexample: with the session state stored as the *empty string*
(present, equal to the supplied `state`) and a verifier present, the code
still throws the invalid-auth-state error, although none of the claim's
three conditions (stored state absent / different from the given state /
verifier absent) holds — the JS check `!expectedState` also rejects a
present-but-empty stored state. -/
theorem C2_counterexample :
    exchangeCodeForTokensStep {} none
        { oidcState := some "", oidcVerifier := some "v" } "c" "" =
      ExchangeStep.invalidAuthState ∧
    ¬((some "" : Option String) = none ∨ (some "" : Option String) ≠ some "" ∨
      (some "v" : Option String) = none) := by
  decide

/-- C2 (amended): `exchangeCodeForTokens` fails with the invalid-auth-state
error exactly when the stored state is absent *or empty*, differs from the
given state, or the stored verifier is absent *or empty*; and for every
`(state, verifier)` pair stored by `startAuthRedirect` (always non-empty
hex strings), calling with the matching state proceeds to the token
request, while any other state fails with that error before any network
request. -/
theorem C2_exchange_state_validation :
    (∀ (env : OidcEnv) (cached : Option BootstrapConfig) (sess : SessionStore)
       (code state : String),
      exchangeCodeForTokensStep env cached sess code state = .invalidAuthState ↔
        (sess.oidcState = none ∨ sess.oidcState = some "" ∨ sess.oidcState ≠ some state ∨
         sess.oidcVerifier = none ∨ sess.oidcVerifier = some "")) ∧
    (∀ (env : OidcEnv) (cached : Option BootstrapConfig) (c : Bool) (se ve : Nat → Nat)
       (code other : String),
      exchangeCodeForTokensStep env cached (startAuthRedirectStore c se ve) code
          (randomString c se 16) =
        .tokenRequest (getOidcIssuer env cached ++ "/protocol/openid-connect/token")
          { grant_type := "authorization_code", client_id := getOidcClientId cached,
            code := code, redirect_uri := getRedirectUri env cached,
            code_verifier := randomString c ve 64 } ∧
      (other ≠ randomString c se 16 →
        exchangeCodeForTokensStep env cached (startAuthRedirectStore c se ve) code other =
          .invalidAuthState)) := by
  constructor
  · intro env cached sess code state
    unfold exchangeCodeForTokensStep
    split
    · rename_i hcond
      simp only [Bool.or_eq_true, decide_eq_true_eq, jsFalsy_eq_true_iff] at hcond
      simp only [true_iff]
      tauto
    · rename_i hcond
      simp only [Bool.or_eq_true, decide_eq_true_eq, jsFalsy_eq_true_iff,
        not_or] at hcond
      simp only [reduceCtorEq, false_iff]
      tauto
  · intro env cached c se ve code other
    have hst := randomString_ne_empty c se 16 (by omega)
    have hver := randomString_ne_empty c ve 64 (by omega)
    have hstE : (randomString c se 16).isEmpty = false := by
      rcases hE : (randomString c se 16).isEmpty with _ | _
      · rfl
      · exact absurd ((String.isEmpty_iff _).mp (by simp [hE])) hst
    have hverE : (randomString c ve 64).isEmpty = false := by
      rcases hE : (randomString c ve 64).isEmpty with _ | _
      · rfl
      · exact absurd ((String.isEmpty_iff _).mp (by simp [hE])) hver
    constructor
    · simp [exchangeCodeForTokensStep, startAuthRedirectStore, jsFalsy, jsTruthy,
        hstE, hverE]
    · intro hother
      simp [exchangeCodeForTokensStep, startAuthRedirectStore, jsFalsy, jsTruthy,
        hstE, hverE, Ne.symm hother]

/-- Closed instantiation of `C2_exchange_state_validation`: the invalid
condition at an absent session, and the initiator round-trip at concrete
entropy. -/
theorem C2_exchange_state_validation_witness :
    exchangeCodeForTokensStep {} none {} "c" "s1" = ExchangeStep.invalidAuthState ∧
    exchangeCodeForTokensStep {} none
        (startAuthRedirectStore true (fun _ => 0) (fun _ => 255)) "c"
        (randomString true (fun _ => 0) 16) =
      .tokenRequest "http://host.docker.internal:5281/realms/synaptagrid/protocol/openid-connect/token"
        { grant_type := "authorization_code", client_id := "synaptagrid-local",
          code := "c", redirect_uri := "http://localhost:3000/auth/callback",
          code_verifier := randomString true (fun _ => 255) 64 } ∧
    exchangeCodeForTokensStep {} none
        (startAuthRedirectStore true (fun _ => 0) (fun _ => 255)) "c" "zzz" =
      ExchangeStep.invalidAuthState := by
  have h1 := (C2_exchange_state_validation.1 {} none {} "c" "s1").mpr (by left; rfl)
  have h2 := C2_exchange_state_validation.2 {} none true (fun _ => 0) (fun _ => 255) "c" "zzz"
  refine ⟨h1, ?_, h2.2 (by decide)⟩
  have := h2.1
  rw [this]
  decide

/-- After filtering out a cookie name, no entry with that name remains. -/
theorem cookie_filter_any_eq_false (l : CookieJar) (n : String) :
    ((l.filter fun p => p.1 ≠ n).any fun p => p.1 == n) = false := by
  rw [List.any_eq_false]
  intro p hp
  simp only [List.mem_filter, decide_eq_true_eq] at hp
  simpa using hp.2

/-- The same after a further filter. -/
theorem cookie_filter_filter_any_eq_false (l : CookieJar) (n : String)
    (q : String × String → Bool) :
    (((l.filter fun p => p.1 ≠ n).filter q).any fun p => p.1 == n) = false := by
  rw [List.any_eq_false]
  intro p hp
  simp only [List.mem_filter, decide_eq_true_eq] at hp
  simpa using hp.1.2

/-- C6: when the armed refresh timer fires and the refresh-token grant
fails, the scheduler clears both token cookies, forces navigation to
`/login`, performs exactly one refresh network call (no retry) and arms no
new timer. -/
theorem C6_refresh_failure_fatal (env : RefreshEnv) (s : SchedulerState)
    (hfail : env.refreshNetResult = none) :
    ((refreshTimerFire env s).browser.jar.any
        fun p => p.1 == encodeURIComponent (COOKIE_NAME env.benv)) = false ∧
    ((refreshTimerFire env s).browser.jar.any
        fun p => p.1 == encodeURIComponent (REFRESH_COOKIE_NAME env.benv)) = false ∧
    (refreshTimerFire env s).locationHref = some "/login" ∧
    (refreshTimerFire env s).timerDelayMs = none ∧
    (refreshTimerFire env s).refreshNetworkCalls = s.refreshNetworkCalls + 1 := by
  have hjar : (refreshTimerFire env s).browser.jar =
      ((s.browser.jar.filter
          fun p => p.1 ≠ encodeURIComponent (COOKIE_NAME env.benv)).filter
        fun p => p.1 ≠ encodeURIComponent (REFRESH_COOKIE_NAME env.benv)) := by
    simp [refreshTimerFire, hfail, clearAccessTokenCookie, clearRefreshTokenCookie,
      documentCookieAssign]
  refine ⟨?_, ?_, ?_, ?_, ?_⟩
  · rw [hjar]; exact cookie_filter_filter_any_eq_false _ _ _
  · rw [hjar]; exact cookie_filter_any_eq_false _ _
  · simp [refreshTimerFire, hfail]
  · simp [refreshTimerFire, hfail]
  · simp [refreshTimerFire, hfail]

/-- Closed instantiation of `C6_refresh_failure_fatal` at a browser holding
both token cookies. -/
theorem C6_refresh_failure_fatal_witness :
    ((refreshTimerFire { refreshNetResult := none } { browser := sampleBrowser }).browser.jar.any
        fun p => p.1 == encodeURIComponent (COOKIE_NAME {})) = false ∧
    (refreshTimerFire { refreshNetResult := none } { browser := sampleBrowser }).locationHref =
      some "/login" := by
  have h := C6_refresh_failure_fatal { refreshNetResult := none } { browser := sampleBrowser } rfl
  exact ⟨h.1, h.2.2.1⟩

/-- C7: the armed refresh delay is exactly
`max 0 ((exp * 1000 - now) - 60000)` for a decodable access token, hence
never negative, and equals 30 s (≤ 30 s) for a token expiring 90 s from
now; with either token cookie missing, no timer is armed. -/
theorem C7_refresh_delay :
    (∀ (env : RefreshEnv) (s : SchedulerState) (tok part : String) (exp : Int),
      getAccessTokenCookie env.benv s.browser.jar = some tok →
      (getRefreshTokenCookie env.benv s.browser.jar).isSome = true →
      (jsSplit tok ".").get? 1 = some part →
      env.decodeJwtExp part = some exp →
      (scheduleRefresh env s).timerDelayMs = some (max 0 (exp * 1000 - env.nowMs - 60000)) ∧
      (0 : Int) ≤ max 0 (exp * 1000 - env.nowMs - 60000) ∧
      (exp * 1000 = env.nowMs + 90000 →
        (scheduleRefresh env s).timerDelayMs = some 30000 ∧ (30000 : Int) ≤ 30000)) ∧
    (∀ (env : RefreshEnv) (s : SchedulerState),
      getAccessTokenCookie env.benv s.browser.jar = none ∨
      getRefreshTokenCookie env.benv s.browser.jar = none →
      (scheduleRefresh env s).timerDelayMs = none) := by
  constructor
  · intro env s tok part exp hacc href hsplit hdec
    rcases hr : getRefreshTokenCookie env.benv s.browser.jar with _ | rt
    · rw [hr] at href; simp at href
    · have harm : (scheduleRefresh env s).timerDelayMs =
          some (max 0 (exp * 1000 - env.nowMs - 60000)) := by
        simp only [scheduleRefresh, hacc, hr, hsplit, hdec]
      refine ⟨harm, le_max_left 0 _, fun h90 => ⟨?_, le_refl _⟩⟩
      rw [harm, h90]
      norm_num
  · intro env s h
    rcases h with h | h <;>
      · rcases h2 : getAccessTokenCookie env.benv s.browser.jar with _ | a <;>
          rcases h3 : getRefreshTokenCookie env.benv s.browser.jar with _ | b <;>
          simp_all [scheduleRefresh]

/-- Closed instantiation of `C7_refresh_delay`: a token expiring 90 s after
`now` is scheduled 30 s out, and an empty jar arms nothing. -/
theorem C7_refresh_delay_witness :
    (scheduleRefresh
      { nowMs := 1000, decodeJwtExp := fun _ => some 91 }
      { browser := { jar := (setRefreshTokenCookie {} "rt" (some 1800)
          (setAccessTokenCookie {} "aaa.bbb.ccc" (some 3600) {})).jar } }).timerDelayMs =
      some 30000 ∧
    (scheduleRefresh { nowMs := 1000, decodeJwtExp := fun _ => some 91 }
      { browser := {} }).timerDelayMs = none := by
  constructor
  · have h := (C7_refresh_delay.1
      { nowMs := 1000, decodeJwtExp := fun _ => some 91 }
      { browser := { jar := (setRefreshTokenCookie {} "rt" (some 1800)
          (setAccessTokenCookie {} "aaa.bbb.ccc" (some 3600) {})).jar } }
      "aaa.bbb.ccc" "bbb" 91 (by decide) (by decide) (by decide) rfl)
    exact (h.2.2 (by norm_num)).1
  · exact C7_refresh_delay.2 { nowMs := 1000, decodeJwtExp := fun _ => some 91 }
      { browser := {} } (Or.inl (by decide))

/-- C8 counterexample: a fragment callback that itself reports
`refresh_expires_in=60` still gets its refresh-token cookie written with a
fixed 30-day `max-age` (2592000 s) — the fragment flow ignores the reported
refresh lifetime, refuting "max-age equal to the token's reported lifetime
… in the fragment-token flow". -/
theorem C8_counterexample :
    (callbackStep
      { hash := "#access_token=tok&refresh_token=r7&expires_in=3600&refresh_expires_in=60",
        bootstrapConfig := some sampleConfig,
        meNetResult := some { user := { email := "ada@acme.io" } } }
      {}).browser.writes =
      [⟨"synaptagrid_access_token", "tok", some 3600⟩,
       ⟨"synaptagrid_refresh_token", "r7", some 2592000⟩] ∧
    (2592000 : Int) ≠ 60 := by
  decide

/-- C8 (amended): the access-token cookie is always written with
`max-age = expires_in`; the refresh-token cookie is written with
`max-age = refresh_expires_in ?? 1800` in the code-exchange and refresh
flows, but with a fixed 30-day `max-age` in the fragment-token flow. -/
theorem C8_cookie_max_ages :
    (∀ (env : CallbackEnv) (code state : String) (s : PageState) (e : String)
       (body : TokenRequestBody) (tokens : TokenResponse) (data : BootstrapResponse),
      exchangeCodeForTokensStep env.oidcEnv env.cachedConfig env.sess code state =
        .tokenRequest e body →
      env.exchangeNetResult = some tokens →
      env.bootstrapNetResult = some data →
      (codeBranch env code state s).browser.writes =
        s.browser.writes ++
          [⟨encodeURIComponent (COOKIE_NAME env.benv),
            encodeURIComponent tokens.access_token, some tokens.expires_in⟩] ++
          (if jsTruthy tokens.refresh_token then
            [⟨encodeURIComponent (REFRESH_COOKIE_NAME env.benv),
              encodeURIComponent (tokens.refresh_token.getD ""),
              some (tokens.refresh_expires_in.getD 1800)⟩]
          else [])) ∧
    (∀ (env : CallbackEnv) (tokens : FragmentTokens) (s : PageState),
      (fragmentBranch env tokens s).browser.writes =
        s.browser.writes ++
          [⟨encodeURIComponent (COOKIE_NAME env.benv),
            encodeURIComponent tokens.access_token, tokens.expires_in⟩] ++
          (if jsTruthy tokens.refresh_token then
            [⟨encodeURIComponent (REFRESH_COOKIE_NAME env.benv),
              encodeURIComponent (tokens.refresh_token.getD ""), some 2592000⟩]
          else [])) ∧
    (∀ (env : RefreshEnv) (s : SchedulerState) (newTokens : TokenResponse),
      env.refreshNetResult = some newTokens →
      (refreshTimerFire env s).browser.writes =
        s.browser.writes ++
          [⟨encodeURIComponent (COOKIE_NAME env.benv),
            encodeURIComponent newTokens.access_token, some newTokens.expires_in⟩] ++
          (if jsTruthy newTokens.refresh_token then
            [⟨encodeURIComponent (REFRESH_COOKIE_NAME env.benv),
              encodeURIComponent (newTokens.refresh_token.getD ""),
              some (newTokens.refresh_expires_in.getD 1800)⟩]
          else [])) := by
  refine ⟨?_, ?_, ?_⟩
  · intro env code state s e body tokens data hstep hexch hboot
    by_cases hrt : jsTruthy tokens.refresh_token
    · simp [codeBranch, hstep, hexch, hboot, hrt, setAccessTokenCookie,
        setRefreshTokenCookie, documentCookieAssign]
    · simp [codeBranch, hstep, hexch, hboot, hrt, setAccessTokenCookie,
        setRefreshTokenCookie, documentCookieAssign]
  · intro env tokens s
    rcases hb : env.bootstrapNetResult with _ | data <;>
      rcases hm : env.meNetResult with _ | me <;>
      by_cases hrt : jsTruthy tokens.refresh_token <;>
      simp [fragmentBranch, hb, hm, hrt, setAccessTokenCookie, setRefreshTokenCookie,
        documentCookieAssign] <;>
      (try split) <;> (try simp) <;> (try split) <;> (try simp)
  · intro env s newTokens hres
    by_cases hrt : jsTruthy newTokens.refresh_token <;>
      simp [refreshTimerFire, hres, hrt, scheduleRefresh, setAccessTokenCookie,
        setRefreshTokenCookie, documentCookieAssign] <;>
      (try split) <;> (try simp) <;> (try split) <;> (try simp) <;>
      (try split) <;> (try simp)

/-- Closed instantiation of `C8_cookie_max_ages` on all three flows at
concrete tokens. -/
theorem C8_cookie_max_ages_witness :
    (codeBranch sampleCodeEnv "abc" "st1" {}).browser.writes =
      [⟨"synaptagrid_access_token", "at1", some 300⟩,
       ⟨"synaptagrid_refresh_token", "rt1", some 1209600⟩] ∧
    (fragmentBranch sampleCodeEnv sampleFragTokens {}).browser.writes =
      [⟨"synaptagrid_access_token", "tok2", some 3600⟩] ∧
    (refreshTimerFire { refreshNetResult := some sampleTokenResponse }
        { browser := sampleBrowser }).browser.writes =
      sampleBrowser.writes ++
        [⟨"synaptagrid_access_token", "at1", some 300⟩,
         ⟨"synaptagrid_refresh_token", "rt1", some 1209600⟩] := by
  refine ⟨?_, ?_, ?_⟩
  · rw [C8_cookie_max_ages.1 sampleCodeEnv "abc" "st1" {}
      "https://idp.example.com/realms/acme/protocol/openid-connect/token"
      { grant_type := "authorization_code", client_id := "acme-client", code := "abc",
        redirect_uri := "https://authn.example.com/v1/authn/oauth/callback",
        code_verifier := "ver1" }
      sampleTokenResponse sampleBootstrapResponse (by decide) rfl rfl]
    decide
  · rw [C8_cookie_max_ages.2.1 sampleCodeEnv sampleFragTokens {}]
    decide
  · rw [C8_cookie_max_ages.2.2 { refreshNetResult := some sampleTokenResponse }
      { browser := sampleBrowser } sampleTokenResponse rfl]
    decide

/-- C5 counterexample: a fragment callback carrying an `id_token` whose
account-resolution call fails transitions the orchestrator to `error`, not
`ready` — the id_token-present branch's catch sets the error status,
refuting "never to error … in both branches". -/
theorem C5_counterexample :
    (callbackStep
      { hash := "#access_token=tok&id_token=idt&expires_in=3600",
        bootstrapConfig := some sampleConfig, bootstrapNetResult := none }
      {}).status = Status.error ∧
    (callbackStep
      { hash := "#access_token=tok&id_token=idt&expires_in=3600",
        bootstrapConfig := some sampleConfig, bootstrapNetResult := none }
      {}).status ≠ Status.ready := by
  decide

/-- C5 (amended): for a fragment-token callback, a failing *current-user*
lookup (the no-id_token branch, and likewise the no-AuthN-URL case) still
transitions to `ready` with the persisted access token retained; but in the
id_token-present branch a failing account-resolution call transitions to
`error` — the access-token cookie remaining in the jar in both cases. -/
theorem C5_fragment_network_failure (env : CallbackEnv) (tokens : FragmentTokens) (n : Int)
    (herr : jsTruthy (searchParamsGet env.search "error") = false)
    (hks : searchParamsGet env.search "kc_action_status" ≠ some "error")
    (hfrag : parseFragmentTokens env.hash = some tokens)
    (hexp : tokens.expires_in = some n) (hnpos : 0 < n)
    (hnames : encodeURIComponent (COOKIE_NAME env.benv) ≠
      encodeURIComponent (REFRESH_COOKIE_NAME env.benv)) :
    ((jsTruthy tokens.id_token = false ∨ (fragmentAuthnBaseUrl env).isEmpty = true) →
      env.meNetResult = none →
      (callbackStep env {}).status = .ready ∧
      (encodeURIComponent (COOKIE_NAME env.benv),
        encodeURIComponent tokens.access_token) ∈ (callbackStep env {}).browser.jar) ∧
    (jsTruthy tokens.id_token = true → (fragmentAuthnBaseUrl env).isEmpty = false →
      env.bootstrapNetResult = none →
      (callbackStep env {}).status = .error ∧
      (encodeURIComponent (COOKIE_NAME env.benv),
        encodeURIComponent tokens.access_token) ∈ (callbackStep env {}).browser.jar) := by
  have hksb : (searchParamsGet env.search "kc_action_status" == some "error") = false := by
    simpa using hks
  have hstep : callbackStep env {} = fragmentBranch env tokens {} := by
    simp [callbackStep, herr, hksb, hfrag]
  have hnle : ¬ n ≤ 0 := by omega
  constructor
  · intro hid hme
    rw [hstep]
    rcases hid with hid | hid <;>
      by_cases hrt : jsTruthy tokens.refresh_token <;>
      by_cases hau : (fragmentAuthnBaseUrl env).isEmpty <;>
      simp_all [fragmentBranch, setAccessTokenCookie, setRefreshTokenCookie,
        documentCookieAssign, hexp, hnle, hnames]
  · intro hid hau hboot
    rw [hstep]
    by_cases hrt : jsTruthy tokens.refresh_token <;>
      simp_all [fragmentBranch, setAccessTokenCookie, setRefreshTokenCookie,
        documentCookieAssign, hexp, hnle, hnames]

/-- Closed instantiation of `C5_fragment_network_failure`: a no-id_token
fragment callback whose `/me` lookup fails still reaches `ready` with the
token cookie in the jar. -/
theorem C5_fragment_network_failure_witness :
    (callbackStep
      { hash := "#access_token=tok2&expires_in=3600",
        bootstrapConfig := some sampleConfig, meNetResult := none }
      {}).status = Status.ready ∧
    (encodeURIComponent (COOKIE_NAME {}), encodeURIComponent "tok2") ∈
      (callbackStep
        { hash := "#access_token=tok2&expires_in=3600",
          bootstrapConfig := some sampleConfig, meNetResult := none }
        {}).browser.jar := by
  exact (C5_fragment_network_failure
    { hash := "#access_token=tok2&expires_in=3600",
      bootstrapConfig := some sampleConfig, meNetResult := none }
    { access_token := "tok2", expires_in := some 3600 } 3600
    (by decide) (by decide) (by decide) rfl (by norm_num) (by decide)).1
    (Or.inl (by decide)) rfl

/-- A latched page state is left untouched by further effect evaluations. -/
theorem callbackStep_latched (env : CallbackEnv) (s : PageState)
    (h : s.hasExchanged = true) : callbackStep env s = s := by
  simp [callbackStep, h]

/-- A latched page state is a fixed point of any re-render sequence. -/
theorem runCallback_latched (envs : List CallbackEnv) (s : PageState)
    (h : s.hasExchanged = true) : runCallback envs s = s := by
  induction envs with
  | nil => rfl
  | cons e es ih =>
    show runCallback es (callbackStep e s) = s
    rw [callbackStep_latched e s h]
    exact ih

/-- The error branch latches and leaves the exchange counters unchanged. -/
theorem errorParamBranch_counters (env : CallbackEnv) (s : PageState) :
    (errorParamBranch env s).exchangeInvocations = s.exchangeInvocations ∧
    (errorParamBranch env s).exchangeNetworkCalls = s.exchangeNetworkCalls ∧
    (errorParamBranch env s).hasExchanged = true := by
  unfold errorParamBranch
  repeat' split
  all_goals simp

/-- The fragment branch latches and leaves the exchange counters
unchanged. -/
theorem fragmentBranch_counters (env : CallbackEnv) (tokens : FragmentTokens)
    (s : PageState) :
    (fragmentBranch env tokens s).exchangeInvocations = s.exchangeInvocations ∧
    (fragmentBranch env tokens s).exchangeNetworkCalls = s.exchangeNetworkCalls ∧
    (fragmentBranch env tokens s).hasExchanged = true := by
  rcases hb : env.bootstrapNetResult with _ | d <;>
    rcases hm : env.meNetResult with _ | m <;>
    by_cases hid : (jsTruthy tokens.id_token && !(fragmentAuthnBaseUrl env).isEmpty) = true <;>
    by_cases hau : (!(fragmentAuthnBaseUrl env).isEmpty) = true <;>
    by_cases hrt : jsTruthy tokens.refresh_token = true <;>
    simp [fragmentBranch, hb, hm, hid, hau, hrt] <;>
    (repeat' split) <;> simp_all

/-- The code branch latches, performs exactly one exchange invocation and
at most one exchange network call. -/
theorem codeBranch_counters (env : CallbackEnv) (code state : String) (s : PageState) :
    (codeBranch env code state s).exchangeInvocations = s.exchangeInvocations + 1 ∧
    (codeBranch env code state s).exchangeNetworkCalls ≤ s.exchangeNetworkCalls + 1 ∧
    s.exchangeNetworkCalls ≤ (codeBranch env code state s).exchangeNetworkCalls ∧
    (codeBranch env code state s).hasExchanged = true := by
  unfold codeBranch
  repeat' split
  all_goals simp

/-- The orchestrator's single-exchange invariant: at most one invocation,
network calls bounded by invocations, and no invocation before the latch is
set. -/
def ExchangeOnce (s : PageState) : Prop :=
  s.exchangeInvocations ≤ 1 ∧ s.exchangeNetworkCalls ≤ s.exchangeInvocations ∧
    (s.hasExchanged = false → s.exchangeInvocations = 0)

/-- One effect evaluation preserves the single-exchange invariant. -/
theorem callbackStep_exchangeOnce (env : CallbackEnv) (s : PageState)
    (h : ExchangeOnce s) : ExchangeOnce (callbackStep env s) := by
  rcases h with ⟨h1, h2, h3⟩
  by_cases hx : s.hasExchanged = true
  · rw [callbackStep_latched env s hx]
    exact ⟨h1, h2, fun hf => absurd hf (by simp [hx])⟩
  · have hx0 : s.hasExchanged = false := by simpa using hx
    have hinv0 : s.exchangeInvocations = 0 := h3 hx0
    have hnet0 : s.exchangeNetworkCalls = 0 := by omega
    unfold callbackStep
    rw [hx0]
    simp only [Bool.false_eq_true, if_false]
    split
    · rcases errorParamBranch_counters env s with ⟨e1, e2, e3⟩
      exact ⟨by omega, by omega, fun hf => absurd hf (by simp [e3])⟩
    · split
      · rename_i tokens heq
        rcases fragmentBranch_counters env tokens s with ⟨e1, e2, e3⟩
        exact ⟨by omega, by omega, fun hf => absurd hf (by simp [e3])⟩
      · split
        · exact ⟨by simp [hinv0], by simp [hinv0, hnet0], fun _ => by simp [hinv0]⟩
        · split
          · exact ⟨by simp [hinv0], by simp [hinv0, hnet0], fun _ => by simp [hinv0]⟩
          · rcases codeBranch_counters env ((searchParamsGet env.search "code").getD "")
              ((searchParamsGet env.search "state").getD "") s with ⟨e1, e2, e3, e4⟩
            exact ⟨by omega, by omega, fun hf => absurd hf (by simp [e4])⟩

/-- The single-exchange invariant is preserved by any re-render sequence. -/
theorem runCallback_exchangeOnce (envs : List CallbackEnv) (s : PageState)
    (h : ExchangeOnce s) : ExchangeOnce (runCallback envs s) := by
  induction envs generalizing s with
  | nil => exact h
  | cons e es ih => exact ih (callbackStep e s) (callbackStep_exchangeOnce e s h)

/-- Under the code+state callback shape with a resolved config and a valid
PKCE session, the first effect evaluation performs exactly one exchange
network call and latches. -/
theorem callbackStep_code_first (env : CallbackEnv) (code state : String)
    (herr : jsTruthy (searchParamsGet env.search "error") = false)
    (hks : searchParamsGet env.search "kc_action_status" ≠ some "error")
    (hfrag : parseFragmentTokens env.hash = none)
    (hcfg : env.bootstrapConfig.isSome = true)
    (hcode : searchParamsGet env.search "code" = some code) (hcne : code.isEmpty = false)
    (hstate : searchParamsGet env.search "state" = some state) (hsne : state.isEmpty = false)
    (hvalid : exchangeCodeForTokensStep env.oidcEnv env.cachedConfig env.sess code state ≠
      .invalidAuthState) :
    (callbackStep env {}).exchangeNetworkCalls = 1 ∧
    (callbackStep env {}).hasExchanged = true := by
  have hksb : (searchParamsGet env.search "kc_action_status" == some "error") = false := by
    simpa using hks
  rcases henv : env.bootstrapConfig with _ | cfg
  · rw [henv] at hcfg; simp at hcfg
  · have hstep : callbackStep env {} = codeBranch env code state {} := by
      simp [callbackStep, herr, hksb, hfrag, henv, hcode, hstate, jsFalsy_some,
        hcne, hsne]
    rw [hstep]
    rcases hx : exchangeCodeForTokensStep env.oidcEnv env.cachedConfig env.sess code state
      with _ | ⟨e, body⟩
    · exact absurd hx hvalid
    · rcases hexch : env.exchangeNetResult with _ | tokens <;>
        rcases hboot : env.bootstrapNetResult with _ | data <;>
        simp [codeBranch, hx, hexch, hboot]

/-- C1: the exchange executes at most once per page load — over any
sequence of effect re-evaluations at most one `exchangeCodeForTokens`
invocation (hence at most one network exchange) happens — and re-evaluating
the effect any number of times on the same code+state callback (with config
resolved and a valid session) performs exactly one network exchange
call. -/
theorem C1_exchange_at_most_once :
    (∀ envs : List CallbackEnv,
      (runCallback envs {}).exchangeInvocations ≤ 1 ∧
      (runCallback envs {}).exchangeNetworkCalls ≤ 1) ∧
    (∀ (env : CallbackEnv) (code state : String) (k : Nat),
      jsTruthy (searchParamsGet env.search "error") = false →
      searchParamsGet env.search "kc_action_status" ≠ some "error" →
      parseFragmentTokens env.hash = none →
      env.bootstrapConfig.isSome = true →
      searchParamsGet env.search "code" = some code → code.isEmpty = false →
      searchParamsGet env.search "state" = some state → state.isEmpty = false →
      exchangeCodeForTokensStep env.oidcEnv env.cachedConfig env.sess code state ≠
        .invalidAuthState →
      (runCallback (List.replicate (k + 1) env) {}).exchangeNetworkCalls = 1) := by
  constructor
  · intro envs
    have h := runCallback_exchangeOnce envs {} ⟨by norm_num, by norm_num, fun _ => rfl⟩
    rcases h with ⟨h1, h2, _⟩
    exact ⟨h1, by omega⟩
  · intro env code state k herr hks hfrag hcfg hcode hcne hstate hsne hvalid
    have hfirst := callbackStep_code_first env code state herr hks hfrag hcfg hcode hcne
      hstate hsne hvalid
    have hrun : runCallback (List.replicate (k + 1) env) {} = callbackStep env {} := by
      have h0 : runCallback (List.replicate (k + 1) env) {} =
          runCallback (List.replicate k env) (callbackStep env {}) := by
        rw [List.replicate_succ]
        rfl
      rw [h0, runCallback_latched _ _ hfirst.2]
    rw [hrun]
    exact hfirst.1

/-- Closed instantiation of `C1_exchange_at_most_once`: three re-renders of
the same code+state callback perform exactly one network exchange. -/
theorem C1_exchange_at_most_once_witness :
    (runCallback (List.replicate 3 sampleCodeEnv) {}).exchangeNetworkCalls = 1 := by
  exact C1_exchange_at_most_once.2 sampleCodeEnv "abc" "st1" 2
    (by decide) (by decide) (by decide) (by decide) (by decide) (by decide)
    (by decide) (by decide) (by decide)
